import Mathlib

/-!
Verification of the natural-language specification of
paraco/freertos-teensy (example/stdthread/src/main.cpp) against a shallow
embedding of the program in Lean 4.

The source file is a FreeRTOS demonstration: a bootstrap routine setup()
that initializes peripherals, busy-waits until the millisecond counter
reaches 2000, prints a banner, registers three tasks with xTaskCreate,
synchronizes the local time base with the real-time clock, and starts the
scheduler; plus task bodies task1 (LED blink loop), task2 and task3
(std thread / future / promise demonstrations) and print_time.

Pure control flow of setup() and the task bodies is embedded as explicit
event traces and step functions.  Behaviour supplied by the C++ standard
library and the FreeRTOS kernel (futures, promises, packaged tasks,
vTaskStartScheduler) is not part of the repository sources; where a claim
depends on it, the definition is modelled from the spec and says so in its
doc comment.
-/

/-- Sentinel: the two LED levels used by the source (arduino LOW and HIGH). -/
inductive Level where
  | low
  | high
deriving DecidableEq, Repr

/-- Observable actions performed by setup() in main.cpp, in source order.
Each constructor corresponds to one call in the bootstrap routine:
Serial.begin, pinMode, digitalWriteFast, the busy-wait loop on millis(),
Serial.println, Serial.flush, xTaskCreate, freertos clock sync against the
real-time clock, rtc_set adjustment, a print_time() call, and
vTaskStartScheduler. -/
inductive Event where
  | serialBegin (baud : Nat)
  | pinModeOutput
  | digitalWrite (level : Level)
  | waitMillis (thresholdMs : Nat)
  | println (s : String)
  | serialFlush
  | taskCreate (name : String) (stackWords : Nat) (prio : Nat)
  | syncRtc
  | rtcAdjust (seconds : Nat)
  | printTimeCall
  | startScheduler
deriving DecidableEq, Repr

/-- Threshold of the power-on busy-wait in setup(): while (millis() < 2'000). -/
def bootWaitThresholdMs : Nat := 2000

/-- Trace of setup() (main.cpp lines 129-158), one event per call, in source
order.  The priority of task2 is configMAX_PRIORITIES - 1; the value of
configMAX_PRIORITIES comes from the FreeRTOS port configuration, which is not
part of the repository sources, so the trace is parameterized by it. -/
def setupTrace (configMaxPriorities : Nat) : List Event :=
  [ .serialBegin 115200,
    .pinModeOutput,
    .digitalWrite .high,
    .waitMillis bootWaitThresholdMs,
    .println "\r\nBooting FreeRTOS kernel.",
    .taskCreate "task1" 128 2,
    .taskCreate "task2" 8192 (configMaxPriorities - 1),
    .taskCreate "task3" 8192 3,
    .syncRtc,
    .printTimeCall,
    .rtcAdjust 3600,
    .syncRtc,
    .printTimeCall,
    .println "setup(): starting scheduler...",
    .serialFlush,
    .startScheduler ]

/-- Events that initialize peripheral or output state in setup(). -/
def eventIsInit : Event → Bool
  | .serialBegin _ => true
  | .pinModeOutput => true
  | .digitalWrite _ => true
  | _ => false

/-- The busy-wait on the millisecond counter. -/
def eventIsWait : Event → Bool
  | .waitMillis _ => true
  | _ => false

/-- A time-base synchronization against the external real-time clock. -/
def eventIsSync : Event → Bool
  | .syncRtc => true
  | _ => false

/-- Registration of a top-level execution context (xTaskCreate). -/
def eventIsRegister : Event → Bool
  | .taskCreate _ _ _ => true
  | _ => false

/-- The call that starts the scheduler (vTaskStartScheduler). -/
def eventIsStart : Event → Bool
  | .startScheduler => true
  | _ => false

/-- Human-readable status output or an output-sink flush. -/
def eventIsStatusOutput : Event → Bool
  | .println _ => true
  | .serialFlush => true
  | .printTimeCall => true
  | _ => false

/-- Decides that in trace tr every event satisfying p occurs strictly before
every event satisfying q (index-wise). -/
def allBefore (p q : Event → Bool) (tr : List Event) : Bool :=
  (List.range tr.length).all fun i =>
    (List.range tr.length).all fun j =>
      !(p (tr.getD i .pinModeOutput) && q (tr.getD j .pinModeOutput)) || decide (i < j)

/-- The phase order asserted by claim C1: initialization strictly before the
wait, the wait strictly before every synchronization, every synchronization
strictly before every context registration, and every registration strictly
before the scheduler start. -/
def claimedBootOrderC1 (tr : List Event) : Bool :=
  allBefore eventIsInit eventIsWait tr &&
  allBefore eventIsWait eventIsSync tr &&
  allBefore eventIsSync eventIsRegister tr &&
  allBefore eventIsRegister eventIsStart tr

/-- The phase order the code actually follows: initialization, wait,
context registration, time-base synchronization, scheduler start. -/
def actualBootOrder (tr : List Event) : Bool :=
  allBefore eventIsInit eventIsWait tr &&
  allBefore eventIsWait eventIsRegister tr &&
  allBefore eventIsRegister eventIsSync tr &&
  allBefore eventIsSync eventIsStart tr

/-- Number of time-base synchronizations performed before the scheduler is
started. -/
def syncCountBeforeStart (tr : List Event) : Nat :=
  (tr.takeWhile fun e => !eventIsStart e).countP fun e => eventIsSync e

/-- C1 counterexample: the order claimed by the spec (synchronization before
context registration) is violated by setup(): the three xTaskCreate calls at
lines 139-141 precede the clock-sync block at lines 144-152.  Evaluated at
configMAX_PRIORITIES = 5; the ordering does not depend on that value. -/
theorem setup_claimed_order_false : claimedBootOrderC1 (setupTrace 5) = false := by
  rfl

/-- C1 (amended): setup() executes initialization, then the elapsed-time
wait, then the registration of the fixed top-level execution contexts, then
the time-base synchronization against the real-time clock, then the
scheduler start, in this order, for every value of configMAX_PRIORITIES. -/
theorem setup_boot_order (mp : Nat) : actualBootOrder (setupTrace mp) = true := by
  rfl

/-- C2 counterexample: setup() does not perform exactly one time-base
synchronization before starting the scheduler; freertos clock sync_rtc is
called twice (main.cpp lines 145 and 149). -/
theorem setup_sync_count_not_one : ¬ syncCountBeforeStart (setupTrace 5) = 1 := by
  decide

/-- C2 (amended): setup() performs exactly two time-base synchronizations
against the external real-time clock before it starts the scheduler (one
initial, one after advancing the RTC by 3600 seconds), for every value of
configMAX_PRIORITIES. -/
theorem setup_sync_count_two (mp : Nat) : syncCountBeforeStart (setupTrace mp) = 2 := by
  rfl

/-- Embedding of the busy-wait loop at main.cpp lines 134-135
( while (millis() < 2'000) {} ).  The values the millisecond counter shows at
successive loop-condition checks are supplied as a function of the check
index; fuel bounds the unrolling.  The result is the index of the first check
at which the counter has reached the threshold (the check at which the loop
falls through), or none if the fuel runs out first. -/
def busyWait (millis : Nat → Nat) (threshold : Nat) : Nat → Nat → Option Nat
  | 0, _ => none
  | fuel + 1, i =>
    if millis i < threshold then busyWait millis threshold fuel (i + 1) else some i

/-- The busy-wait loop exits exactly at the first check whose millisecond
reading has reached the threshold: the reading at the exit check is at least
the threshold, and every earlier check read a value below it. -/
theorem busyWait_exit (millis : Nat → Nat) (threshold : Nat) :
    ∀ fuel start i, busyWait millis threshold fuel start = some i →
      threshold ≤ millis i ∧ ∀ j, start ≤ j → j < i → millis j < threshold := by
  intro fuel
  induction fuel with
  | zero =>
    intro start i h
    simp [busyWait] at h
  | succ n ih =>
    intro start i h
    simp only [busyWait] at h
    by_cases hc : millis start < threshold
    · rw [if_pos hc] at h
      obtain ⟨h1, h2⟩ := ih (start + 1) i h
      refine ⟨h1, fun j hj1 hj2 => ?_⟩
      rcases Nat.eq_or_lt_of_le hj1 with rfl | hlt
      · exact hc
      · exact h2 j hlt hj2
    · rw [if_neg hc] at h
      obtain rfl : start = i := Option.some.inj h
      exact ⟨Nat.le_of_not_lt hc, fun j hj1 hj2 => absurd hj2 (by omega)⟩

/-- C8: setup() does not proceed past its initial wait until the millisecond
counter has reached 2000: when the busy-wait exits at check i, the counter
reads at least 2000 there and read below 2000 at every earlier check; and in
the bootstrap trace every status output and every context registration comes
strictly after the wait. -/
theorem setup_threshold_wait (millis : Nat → Nat) (fuel start i mp : Nat)
    (h : busyWait millis bootWaitThresholdMs fuel start = some i) :
    bootWaitThresholdMs ≤ millis i ∧
    (∀ j, start ≤ j → j < i → millis j < bootWaitThresholdMs) ∧
    allBefore eventIsWait
      (fun e => eventIsStatusOutput e || eventIsRegister e) (setupTrace mp) = true := by
  obtain ⟨h1, h2⟩ := busyWait_exit millis bootWaitThresholdMs fuel start i h
  exact ⟨h1, h2, rfl⟩

/-- Witness for setup_threshold_wait: a counter already at 2000 lets the wait
fall through at its first check. -/
theorem setup_threshold_wait_witness :
    bootWaitThresholdMs ≤ (fun _ : Nat => 2000) 0 ∧
    (∀ j, 0 ≤ j → j < 0 → (fun _ : Nat => 2000) j < bootWaitThresholdMs) ∧
    allBefore eventIsWait
      (fun e => eventIsStatusOutput e || eventIsRegister e) (setupTrace 5) = true :=
  setup_threshold_wait (fun _ => 2000) 1 0 0 5 (by decide)

/-- Modelled from the spec: the control state of the boot process.  The
scheduler itself (vTaskStartScheduler) is part of the FreeRTOS kernel, not of
the repository sources; the spec states that starting it transfers control
permanently and never returns it to the bootstrap sequence.  Either the
bootstrap routine is still executing its remaining events, or the scheduler
is running. -/
inductive BootPhase where
  | bootstrapping (remaining : List Event)
  | schedulerRunning
deriving DecidableEq, Repr

/-- Modelled from the spec: one step of boot control flow.  Performing the
scheduler-start event hands control to the scheduler; any other event is
consumed and the bootstrap continues; a running scheduler never hands control
back to the bootstrap sequence. -/
def bootStep : BootPhase → BootPhase
  | .bootstrapping [] => .bootstrapping []
  | .bootstrapping (e :: rest) =>
    if eventIsStart e then .schedulerRunning else .bootstrapping rest
  | .schedulerRunning => .schedulerRunning

/-- C6: starting the scheduler is a permanent one-way transfer: the
schedulerRunning state is absorbing under every number of further steps,
running the bootstrap trace to completion ends in schedulerRunning, and the
scheduler-start call is the last event of setup() (appearing exactly once),
so nothing in the bootstrap sequence runs after it. -/
theorem scheduler_start_one_way (n mp : Nat) :
    Nat.iterate bootStep n BootPhase.schedulerRunning = BootPhase.schedulerRunning ∧
    Nat.iterate bootStep (setupTrace mp).length
      (BootPhase.bootstrapping (setupTrace mp)) = BootPhase.schedulerRunning ∧
    (setupTrace mp).getLast? = some Event.startScheduler ∧
    (setupTrace mp).countP (fun e => eventIsStart e) = 1 := by
  refine ⟨Function.iterate_fixed rfl n, rfl, rfl, rfl⟩

/-- Embedding of print_time (main.cpp lines 40-53).  The strftime call is a C
library routine (not part of the repository sources); it is modelled by its
return value count (characters written, 0 on failure) together with the
formatted buffer contents.  When the count is positive the buffer is printed
to the serial sink and true is returned; otherwise nothing is written and
false is returned. -/
def print_time (count : Nat) (buffer : String) : Bool × List String :=
  if count > 0 then (true, [buffer]) else (false, [])

/-- C9: under the strftime contract (the buffer is non-empty exactly when the
returned count is positive), print_time returns true and writes the formatted
timestamp if and only if formatting produced a non-empty string, and returns
false exactly when it writes nothing. -/
theorem print_time_spec (count : Nat) (buffer : String)
    (hfmt : buffer ≠ "" ↔ 0 < count) :
    ((print_time count buffer).fst = true ↔ buffer ≠ "") ∧
    ((print_time count buffer).snd = [buffer] ↔ buffer ≠ "") ∧
    ((print_time count buffer).fst = false ↔ (print_time count buffer).snd = []) := by
  by_cases hc : 0 < count
  · have hb : buffer ≠ "" := hfmt.mpr hc
    simp [print_time, hc, hb]
  · have hb : ¬buffer ≠ "" := fun h => hc (hfmt.mp h)
    simp only [not_not] at hb
    simp [print_time, hc, hb]

/-- Witness for print_time_spec at a successful formatting of "Mon UTC". -/
theorem print_time_spec_witness :
    ((print_time 7 "Mon UTC").fst = true ↔ "Mon UTC" ≠ "") ∧
    ((print_time 7 "Mon UTC").snd = ["Mon UTC"] ↔ "Mon UTC" ≠ "") ∧
    ((print_time 7 "Mon UTC").fst = false ↔ (print_time 7 "Mon UTC").snd = []) :=
  print_time_spec 7 "Mon UTC" (by decide)

/-- Action of the LED-blink task: drive the built-in LED to a level, or delay
for a number of milliseconds. -/
inductive LedAct where
  | write (level : Level)
  | delayMs (ms : Nat)
deriving DecidableEq, Repr

/-- One pass of the while (true) body of task1 (main.cpp lines 56-62): drive
the built-in LED low, delay 250 ms, drive it high, delay 250 ms. -/
def task1Body : List LedAct :=
  [.write .low, .delayMs 250, .write .high, .delayMs 250]

/-- Loop condition of task1: while (true). -/
def task1Cond : Bool := true

/-- Embedding of the task1 loop, unrolled fuel times: the actions emitted so
far, and whether the loop has exited on its own (false while it still runs). -/
def task1Run : Nat → List LedAct × Bool
  | 0 => ([], false)
  | fuel + 1 =>
    if task1Cond then
      let r := task1Run fuel
      (task1Body ++ r.1, r.2)
    else ([], true)

/-- The infinite action stream of task1: the loop body repeated forever. -/
def task1Stream (n : Nat) : LedAct :=
  task1Body.getD (n % 4) (.delayMs 250)

/-- The task1 loop never exits on its own: its condition is the constant
true. -/
theorem task1Run_never_exits (fuel : Nat) : (task1Run fuel).snd = false := by
  induction fuel with
  | zero => rfl
  | succ m ih => exact ih

/-- Every unrolling of the task1 loop agrees with the periodic stream. -/
theorem task1Run_getD (fuel : Nat) :
    ∀ n, n < 4 * fuel →
      (task1Run fuel).fst.getD n (.delayMs 250) = task1Stream n := by
  induction fuel with
  | zero => intro n h; omega
  | succ m ih =>
    intro n h
    show (task1Body ++ (task1Run m).fst).getD n (.delayMs 250) = task1Stream n
    by_cases h4 : n < 4
    · interval_cases n <;> rfl
    · obtain ⟨k, rfl⟩ : ∃ k, n = k + 4 := ⟨n - 4, by omega⟩
      have hstep : (task1Body ++ (task1Run m).fst).getD (k + 4) (.delayMs 250)
          = (task1Run m).fst.getD k (.delayMs 250) := rfl
      rw [hstep, ih k (by omega)]
      have hmod : k % 4 = (k + 4) % 4 := by omega
      simp only [task1Stream, hmod]

/-- C10: the task1 loop never returns (its exit flag is false after any
number of iterations), its action stream strictly alternates the LED level —
the k-th write drives the LED low for even k and high for odd k, with a
250 ms delay after every write — and every finite unrolling of the loop
agrees with that stream. -/
theorem task1_blinks_forever (fuel k : Nat) :
    (task1Run fuel).snd = false ∧
    task1Stream (2 * k) = .write (if k % 2 = 0 then Level.low else Level.high) ∧
    task1Stream (2 * k + 1) = .delayMs 250 ∧
    (∀ n, n < 4 * fuel →
      (task1Run fuel).fst.getD n (.delayMs 250) = task1Stream n) := by
  refine ⟨task1Run_never_exits fuel, ?_, ?_, task1Run_getD fuel⟩
  · rcases Nat.mod_two_eq_zero_or_one k with h | h
    · have h4 : 2 * k % 4 = 0 := by omega
      simp [task1Stream, task1Body, h4, h]
    · have h4 : 2 * k % 4 = 2 := by omega
      simp [task1Stream, task1Body, h4, h]
  · rcases Nat.mod_two_eq_zero_or_one k with h | h
    · have h4 : (2 * k + 1) % 4 = 1 := by omega
      simp [task1Stream, task1Body, h4]
    · have h4 : (2 * k + 1) % 4 = 3 := by omega
      simp [task1Stream, task1Body, h4]

/-- Witness for task1_blinks_forever: one unrolling of the loop has not
exited, starts by driving the LED low, and matches the stream at index 0. -/
theorem task1_blinks_forever_witness :
    (task1Run 1).snd = false ∧
    (task1Run 1).fst.getD 0 (LedAct.delayMs 250) = task1Stream 0 :=
  ⟨(task1_blinks_forever 1 0).1, (task1_blinks_forever 1 0).2.2.2 0 (by decide)⟩

/-- The three callables handed to std async in task3 (main.cpp lines 91-93),
returning 2, 3 and 5. -/
def task3Producers : List (Unit → Int) :=
  [fun _ => 2, fun _ => 3, fun _ => 5]

/-- Modelled from the spec: completing producer i writes the value of
callable i into result slot i (std future mechanics are a C++ standard
library component, not in the repository sources; the spec states that each
eagerly dispatched callable runs on its own execution context and completes
its own result slot). -/
def completeOne (fs : List (Unit → Int)) (slots : Nat → Option Int) (i : Nat) :
    Nat → Option Int :=
  Function.update slots i (some ((fs.getD i fun _ => 0) ()))

/-- Modelled from the spec: run the producers to completion in the given
order, starting from empty result slots. -/
def runOrder (fs : List (Unit → Int)) (order : List Nat) : Nat → Option Int :=
  order.foldl (completeOne fs) fun _ => none

/-- get() on each of the first n result slots and sum of the results; none
if some producer has not completed (its get() would still block). -/
def sumGets (slots : Nat → Option Int) (n : Nat) : Option Int :=
  (List.range n).foldr
    (fun i acc =>
      match slots i, acc with
      | some v, some a => some (v + a)
      | _, _ => none)
    (some 0)

/-- After completing the producers in any order, slot i holds the value of
callable i exactly when i occurs in the order, and is untouched otherwise. -/
theorem runOrder_apply (fs : List (Unit → Int)) :
    ∀ (order : List Nat) (start : Nat → Option Int) (i : Nat),
      order.foldl (completeOne fs) start i =
        if i ∈ order then some ((fs.getD i fun _ => 0) ()) else start i := by
  intro order
  induction order with
  | nil => intro start i; simp
  | cons a rest ih =>
    intro start i
    show rest.foldl (completeOne fs) (completeOne fs start a) i = _
    rw [ih]
    by_cases hr : i ∈ rest
    · simp [hr]
    · by_cases ha : i = a
      · subst ha
        simp [hr, completeOne, Function.update_same]
      · simp [hr, ha, completeOne, Function.update_apply]

/-- C3: for every completion order that is a permutation of the three task3
producers, the sum of the three get() results equals 2 + 3 + 5 = 10; the
outcome is independent of the order in which the producers complete. -/
theorem task3_sum_order_independent (order : List Nat) (h : order.Perm [0, 1, 2]) :
    sumGets (runOrder task3Producers order) 3 = some 10 := by
  have hmem : ∀ i : Nat, i ∈ order ↔ i ∈ [0, 1, 2] := fun i => h.mem_iff
  have h0 : runOrder task3Producers order 0 = some 2 := by
    rw [runOrder, runOrder_apply]
    simp [hmem, task3Producers]
  have h1 : runOrder task3Producers order 1 = some 3 := by
    rw [runOrder, runOrder_apply]
    simp [hmem, task3Producers]
  have h2 : runOrder task3Producers order 2 = some 5 := by
    rw [runOrder, runOrder_apply]
    simp [hmem, task3Producers]
  rw [sumGets, show List.range 3 = [0, 1, 2] from rfl]
  simp [h0, h1, h2]

/-- Witness for task3_sum_order_independent at the completion order 2, 0, 1. -/
theorem task3_sum_order_independent_witness :
    sumGets (runOrder task3Producers [2, 0, 1]) 3 = some 10 :=
  task3_sum_order_independent [2, 0, 1] (by decide)

/-- Modelled from the spec: lifecycle of an execution context that calls
set_value_at_thread_exit (main.cpp line 111; std promise is a C++ standard
library component, not in the repository sources).  The spec states the value
becomes visible to waiters only after the setting context has fully wound
down.  running: the body is still executing; pendingCommit: the value has
been stored for commit at exit but the context has not yet wound down;
exited: the context has fully wound down and the value is committed. -/
inductive ProducerState where
  | running
  | pendingCommit (v : Int)
  | exited (v : Int)
deriving DecidableEq, Repr

/-- Modelled from the spec: one step of the producing context that sets
value v at thread exit: the body stores v for commit at exit, winding down
commits it, and an exited context stays exited. -/
def producerStep (v : Int) : ProducerState → ProducerState
  | .running => .pendingCommit v
  | .pendingCommit w => .exited w
  | .exited w => .exited w

/-- What a waiter's get() can observe: the committed value, if any.  While
the producing context has not wound down, the result slot is empty and the
waiter keeps blocking. -/
def promiseVisible : ProducerState → Option Int
  | .exited v => some v
  | _ => none

/-- Whether the producing context has fully wound down. -/
def producerWoundDown : ProducerState → Bool
  | .exited _ => true
  | _ => false

/-- State of a producer that sets v at thread exit, after n steps from its
start (in task3, v = 9). -/
def producerAt (v : Int) : Nat → ProducerState
  | 0 => .running
  | n + 1 => producerStep v (producerAt v n)

/-- Every reachable state of the producer is the start state, the pending
commit of its value, or the exited state carrying that value. -/
theorem producerAt_cases (v : Int) (n : Nat) :
    producerAt v n = .running ∨ producerAt v n = .pendingCommit v ∨
      producerAt v n = .exited v := by
  induction n with
  | zero => exact Or.inl rfl
  | succ m ih =>
    rcases ih with h | h | h <;>
      simp [producerAt, h, producerStep]

/-- C4: a waiter on the set-at-exit promise never observes a value before the
producing context has fully wound down, and the value it then receives is
exactly the one that was set: whenever get() observes some value w after n
producer steps, the producer has wound down and w equals the value v it set
(v = 9 in task3). -/
theorem promise_set_at_exit (v w : Int) (n : Nat)
    (h : promiseVisible (producerAt v n) = some w) :
    producerWoundDown (producerAt v n) = true ∧ w = v := by
  rcases producerAt_cases v n with hc | hc | hc <;> rw [hc] at h ⊢
  · simp [promiseVisible] at h
  · simp [promiseVisible] at h
  · refine ⟨rfl, ?_⟩
    simpa [promiseVisible] using h.symm

/-- Witness for promise_set_at_exit: after two steps the task3 producer has
exited and the waiter observes the value 9 that was set. -/
theorem promise_set_at_exit_witness :
    producerWoundDown (producerAt 9 2) = true ∧ (9 : Int) = 9 :=
  promise_set_at_exit 9 9 2 (by decide)

/-- Modelled from the spec: a Deferred Result is a write-once result slot
consumed by get(). -/
structure DeferredResult where
  slot : Option Int
deriving DecidableEq, Repr

/-- Modelled from the spec: std packaged_task wraps a callable together with
its own Deferred Result (main.cpp lines 101-102; the std library is not in
the repository sources): the callable is stored unrun and the associated
result slot starts empty. -/
def packageTask (f : Unit → Int) : (Unit → Int) × DeferredResult :=
  (f, ⟨none⟩)

/-- Modelled from the spec: a Thread Handle runs the wrapped callable to
completion on its execution context, filling the associated result slot
(main.cpp line 103). -/
def threadRunPackaged (w : (Unit → Int) × DeferredResult) : DeferredResult :=
  ⟨some (w.1 ())⟩

/-- Modelled from the spec: eager dispatch (std async with launch async,
main.cpp line 106) runs the callable immediately on a new execution context,
which completes the result slot. -/
def eagerDispatch (f : Unit → Int) : DeferredResult :=
  ⟨some (f ())⟩

/-- get() on a Deferred Result: the stored value once the producer has
completed. -/
def deferredResultGet (d : DeferredResult) : Option Int :=
  d.slot

/-- Observable outcome of the packaged-callable route: wrap the callable,
hand it to a Thread Handle, retrieve the Deferred Result. -/
def packagedRouteGet (f : Unit → Int) : Option Int :=
  deferredResultGet (threadRunPackaged (packageTask f))

/-- C5: for every callable, wrapping it in a packaged task, handing it to a
Thread Handle and retrieving its Deferred Result yields the same observable
result as eager dispatch of the same callable; in particular the task3
packaged callable returning 7 and the eager-dispatched callable returning 8
both deliver their return value through get(). -/
theorem packaged_equals_eager (f : Unit → Int) :
    packagedRouteGet f = deferredResultGet (eagerDispatch f) ∧
    packagedRouteGet (fun _ => 7) = some 7 ∧
    deferredResultGet (eagerDispatch fun _ => 8) = some 8 :=
  ⟨rfl, rfl, rfl⟩

/-- Modelled from the spec: state of a deferred-dispatch Deferred Result
(std async with launch deferred, main.cpp line 93; the std library is not in
the repository sources): how many times the stored callable has been invoked,
how many new execution contexts were spawned for it, the context it ran on
(if it ran), and the produced result. -/
structure DeferredDispatch where
  invocations : Nat
  spawned : Nat
  ranOn : Option Nat
  result : Option Int
deriving DecidableEq, Repr

/-- Modelled from the spec: creating the deferred future stores the callable
without running it and spawns no execution context. -/
def deferredCreate : DeferredDispatch :=
  ⟨0, 0, none, none⟩

/-- Modelled from the spec: the first get() or wait() on the deferred future
runs the callable synchronously on the calling execution context, spawning no
new context; later calls reuse the stored result. -/
def deferredForce (f : Unit → Int) (caller : Nat) (s : DeferredDispatch) :
    DeferredDispatch :=
  match s.result with
  | some _ => s
  | none => ⟨s.invocations + 1, s.spawned, some caller, some (f ())⟩

/-- C7: a deferred-dispatch Deferred Result does not run its callable before
the first get()/wait() (zero invocations and zero spawned contexts at
creation); the first get() runs it exactly once, synchronously on the calling
execution context, with no new context spawned, producing the callable's
value; and a later get() reuses the stored result without running it
again. -/
theorem deferred_dispatch_lazy_synchronous (f : Unit → Int) (caller later : Nat) :
    deferredCreate.invocations = 0 ∧
    deferredCreate.spawned = 0 ∧
    (deferredForce f caller deferredCreate).result = some (f ()) ∧
    (deferredForce f caller deferredCreate).ranOn = some caller ∧
    (deferredForce f caller deferredCreate).spawned = 0 ∧
    (deferredForce f caller deferredCreate).invocations = 1 ∧
    deferredForce f later (deferredForce f caller deferredCreate) =
      deferredForce f caller deferredCreate :=
  ⟨rfl, rfl, rfl, rfl, rfl, rfl, rfl⟩
